import Mathlib

/-!
Verification of the beanstalkd client library `beanstalkc_timeout.py`
(a beanstalkd protocol client with non-blocking socket I/O and manual
buffering).  The wire protocol is ASCII, so bytes are modelled as `Char`
lists.  Socket behaviour (readiness of `select`, the byte counts accepted
by `send`, the chunks delivered by `recv`) is modelled as an explicit
event trace consumed by each loop; exhausting the trace is reported as
`outOfFuel` and stands for the loop still running.
-/

namespace Beanstalkc

/-- Byte strings of the ASCII wire protocol. -/
abbrev Bytes := List Char

/-- Convert a string literal to the byte-list representation. -/
def toL (s : String) : Bytes := s.toList

/-- The line terminator `"\r\n"`. -/
def crlf : Bytes := ['\r', '\n']

/-- Python `str.isspace` characters, as used by `str.split()` with no
separator argument. -/
def pySpace (c : Char) : Bool :=
  c = ' ' || c = '\t' || c = '\n' || c = '\r' || c = '\x0b' || c = '\x0c'

/-- Accumulator worker for `pySplit`. -/
def splitAux : Bytes → Bytes → List Bytes
  | [], acc => if acc.isEmpty then [] else [acc.reverse]
  | c :: rest, acc =>
      if pySpace c then
        if acc.isEmpty then splitAux rest []
        else acc.reverse :: splitAux rest []
      else splitAux rest (c :: acc)

/-- Python `s.split()` (line 120 and `command.split()` on lines 103/105):
split on runs of whitespace, dropping empty fields. -/
def pySplit (s : Bytes) : List Bytes := splitAux s []

/-- Python `bytearray.partition('\r\n')` (line 117): split at the first
occurrence of the separator, returning (before, separator, after); when
the separator does not occur, the whole input is returned in the first
component and the other two are empty. -/
def partitionCRLF : Bytes → Bytes × Bytes × Bytes
  | [] => ([], [], [])
  | c :: rest =>
      if c = '\r' ∧ rest.head? = some '\n' then ([], ['\r', '\n'], rest.tail)
      else
        let p := partitionCRLF rest
        (c :: p.1, p.2.1, p.2.2)

/-! ## `Connection._sendall` (lines 72-93) -/

/-- Outcome of one `self._socket.send(...)` call: the kernel accepted
`n` bytes, or raised `EAGAIN`, or raised some other `socket.error`. -/
inductive SendOutcome
  | accepted (n : Nat)
  | eagain
  | fatal
  deriving DecidableEq, Repr

/-- One iteration of the `_sendall` retry loop: the `select` for
writability either timed out or reported writable, in which case `send`
produced the given outcome. -/
inductive LoopEvent
  | notWritable
  | writable (o : SendOutcome)
  deriving DecidableEq, Repr

/-- Result of `_sendall`: normal return (with the final value of the
`sent` counter), `socket.timeout`, a propagated `socket.error`, or the
loop still running when the supplied trace ran out. -/
inductive SendallResult
  | ok (sent : Nat)
  | timedOut
  | socketError
  | outOfFuel (sent : Nat) (remaining : Int)
  deriving DecidableEq, Repr

/-- The `while remaining:` loop of `_sendall` (lines 82-93).  `remaining`
is a Python int and may go negative, and the loop condition is its
truthiness (`remaining ≠ 0`).  On a successful `send` the code runs
`sent += n` followed by `remaining -= sent` (line 93) — note that it
subtracts the *cumulative* `sent`, exactly as the source does.  An
`EAGAIN` from `send` skips the `else:` clause, leaving both counters
unchanged. -/
def sendallLoop (sent : Nat) (remaining : Int) (evs : List LoopEvent) : SendallResult :=
  if remaining = 0 then .ok sent
  else
    match evs with
    | [] => .outOfFuel sent remaining
    | .notWritable :: _ => .timedOut
    | .writable .fatal :: _ => .socketError
    | .writable .eagain :: rest => sendallLoop sent remaining rest
    | .writable (.accepted n) :: rest =>
        sendallLoop (sent + n) (remaining - (sent + n)) rest

/-- `Connection._sendall(data)` over a data length and a socket trace:
the initial `send` (lines 73-80) yields `sent` (0 on `EAGAIN`, raise on
any other error), `remaining = len(data) - sent` (line 81), then the
retry loop runs. -/
def sendall (dataLen : Nat) (first : SendOutcome) (evs : List LoopEvent) : SendallResult :=
  match first with
  | .fatal => .socketError
  | .eagain => sendallLoop 0 (Int.ofNat dataLen) evs
  | .accepted n => sendallLoop n (Int.ofNat dataLen - Int.ofNat n) evs

/-! ## `Connection._read_response` (lines 107-121) and
`Connection._read_body` (lines 123-138) -/

/-- One iteration of a receive loop: `select` for readability either
timed out, or the socket was readable and `recv` returned the given
chunk (an empty chunk means the peer closed the connection). -/
inductive RecvEvent
  | notReadable
  | chunk (data : Bytes)
  deriving DecidableEq, Repr

/-- Result of `_read_response`: a parsed status line (status token,
argument tokens, and the bytes left in `self.buf`), `socket.timeout`,
`ConnectionClosed`, an `IndexError` from `response[0]` on a
whitespace-only line, or the loop still running at trace end. -/
inductive ReadResult
  | ok (status : Bytes) (args : List Bytes) (buf : Bytes)
  | timedOut
  | closed
  | indexError
  | outOfFuel (buf : Bytes)
  deriving DecidableEq, Repr

/-- `Connection._read_response` (lines 107-121) over the starting buffer
and a trace of receive events.  Each iteration selects, recvs a chunk,
extends the buffer, partitions it on `"\r\n"`, stores the third
component back into `self.buf`, and returns the split tokens whenever
the first component (`line`) is non-empty — exactly the source's
`if line:` test, which does not examine whether the separator was
actually found. -/
def readResponse (buf : Bytes) (evs : List RecvEvent) : ReadResult :=
  match evs with
  | [] => .outOfFuel buf
  | .notReadable :: _ => .timedOut
  | .chunk [] :: _ => .closed
  | .chunk (c :: cs) :: rest =>
      let p := partitionCRLF (buf ++ c :: cs)
      if p.1.isEmpty then readResponse p.2.2 rest
      else
        match pySplit p.1 with
        | [] => .indexError
        | t :: ts => .ok t ts p.2.2

/-- Result of `_read_body`: the body plus the bytes left buffered,
`socket.timeout`, `ConnectionClosed`, or the loop still running. -/
inductive BodyResult
  | ok (body : Bytes) (buf : Bytes)
  | timedOut
  | closed
  | outOfFuel
  deriving DecidableEq, Repr

/-- `Connection._read_body(size)` (lines 123-138): `full_size = size + 2`;
while `remaining = full_size - len(self.buf)` is positive, select, recv
a chunk (empty chunk raises `ConnectionClosed`) and extend the buffer;
then return `self.buf[:size]` as the body and keep `self.buf[full_size:]`
buffered. -/
def readBody (size : Nat) (buf : Bytes) (evs : List RecvEvent) : BodyResult :=
  if size + 2 ≤ buf.length then .ok (buf.take size) (buf.drop (size + 2))
  else
    match evs with
    | [] => .outOfFuel
    | .notReadable :: _ => .timedOut
    | .chunk [] :: _ => .closed
    | .chunk (c :: cs) :: rest => readBody size (buf ++ c :: cs) rest

/-! ## `Connection.close` (lines 64-70) -/

/-- Result of `close()`.  In the source the `self._socket.close()` call
sits *inside* the `try:` block after `self._sendall('quit\r\n')`, and the
`except socket.error: pass` clause catches both `socket.error` and its
subclass `socket.timeout`; so when the send raises, control jumps to the
handler and `close()` is never reached — the error is swallowed and the
socket is left open. -/
inductive CloseResult
  | closedSocket
  | swallowed
  | diverged
  deriving DecidableEq, Repr

/-- `Connection.close` (lines 64-70): send the 6-byte `'quit\r\n'`
through `_sendall`, close the socket on success; any `socket.error`
(including `socket.timeout`) is caught and ignored, skipping the
`close()` call. -/
def closeConn (first : SendOutcome) (evs : List LoopEvent) : CloseResult :=
  match sendall 6 first evs with
  | .ok _ => .closedSocket
  | .timedOut => .swallowed
  | .socketError => .swallowed
  | .outOfFuel _ _ => .diverged

/-! ## `Connection._interact` (lines 95-105) -/

/-- Outcome of `_interact`: normal return of the argument tokens, or one
of the two raised exceptions, each carrying the verb (`command.split()[0]`),
the status, and the argument tokens. -/
inductive InteractOutcome
  | ok (results : List Bytes)
  | commandFailed (verb status : Bytes) (results : List Bytes)
  | unexpectedResponse (verb status : Bytes) (results : List Bytes)
  deriving DecidableEq, Repr

/-- The classification step of `Connection._interact` (lines 100-105),
applied to the `(status, results)` pair produced by `_read_response`
(the send and receive transport steps are modelled separately by
`sendall` and `readResponse`). -/
def interactClassify (command : Bytes) (expectedOk expectedErr : List Bytes)
    (status : Bytes) (results : List Bytes) : InteractOutcome :=
  if status ∈ expectedOk then .ok results
  else if status ∈ expectedErr then
    .commandFailed ((pySplit command).headD []) status results
  else
    .unexpectedResponse ((pySplit command).headD []) status results

/-! ## Status classification of each public verb

Each verb calls `_interact` with its literal expected-success and
expected-failure lists; the functions below record what each verb does
with the status of the received response: return normally, raise
`CommandFailed`, raise `UnexpectedResponse`, or raise `DeadlineSoon`.
(The payloads of the returns and exceptions are dropped here; the full
`reserve` model below keeps them.) -/

/-- What a call does, at the return-vs-raise level. -/
inductive Outcome
  | returns
  | commandFailed
  | unexpectedResponse
  | deadlineSoon
  deriving DecidableEq, Repr

/-- The `if/elif/else` of `_interact` (lines 100-105), at the
return-vs-raise level. -/
def classifyKind (expectedOk expectedErr : List Bytes) (status : Bytes) : Outcome :=
  if status ∈ expectedOk then .returns
  else if status ∈ expectedErr then .commandFailed
  else .unexpectedResponse

/-- `put` (lines 163-170). -/
def putOutcome : Bytes → Outcome :=
  classifyKind [toL "INSERTED", toL "BURIED"] [toL "JOB_TOO_BIG"]

/-- `kick` (lines 192-194). -/
def kickOutcome : Bytes → Outcome := classifyKind [toL "KICKED"] []

/-- `tubes` (lines 212-214). -/
def tubesOutcome : Bytes → Outcome := classifyKind [toL "OK"] []

/-- `using` (lines 216-218). -/
def usingOutcome : Bytes → Outcome := classifyKind [toL "USING"] []

/-- `use` (lines 220-222). -/
def useOutcome : Bytes → Outcome := classifyKind [toL "USING"] []

/-- `watching` (lines 224-226). -/
def watchingOutcome : Bytes → Outcome := classifyKind [toL "OK"] []

/-- `watch` (lines 228-230). -/
def watchOutcome : Bytes → Outcome := classifyKind [toL "WATCHING"] []

/-- `stats` (lines 241-243). -/
def statsOutcome : Bytes → Outcome := classifyKind [toL "OK"] []

/-- `stats_tube` (lines 245-249). -/
def statsTubeOutcome : Bytes → Outcome :=
  classifyKind [toL "OK"] [toL "NOT_FOUND"]

/-- `pause_tube` (lines 251-255). -/
def pauseTubeOutcome : Bytes → Outcome :=
  classifyKind [toL "PAUSED"] [toL "NOT_FOUND"]

/-- `delete` (lines 259-261). -/
def deleteOutcome : Bytes → Outcome :=
  classifyKind [toL "DELETED"] [toL "NOT_FOUND"]

/-- `release` (lines 263-267). -/
def releaseOutcome : Bytes → Outcome :=
  classifyKind [toL "RELEASED", toL "BURIED"] [toL "NOT_FOUND"]

/-- `bury` (lines 269-273). -/
def buryOutcome : Bytes → Outcome :=
  classifyKind [toL "BURIED"] [toL "NOT_FOUND"]

/-- `touch` (lines 275-278). -/
def touchOutcome : Bytes → Outcome :=
  classifyKind [toL "TOUCHED"] [toL "NOT_FOUND"]

/-- `stats_job` (lines 280-284). -/
def statsJobOutcome : Bytes → Outcome :=
  classifyKind [toL "OK"] [toL "NOT_FOUND"]

/-- `_interact_peek` (lines 155-159), used by all four `peek*` verbs:
`try` the interaction with ok `['FOUND']` and err `['NOT_FOUND']`, and
turn any `CommandFailed` into a normal `None` return. -/
def peekOutcome (status : Bytes) : Outcome :=
  match classifyKind [toL "FOUND"] [toL "NOT_FOUND"] status with
  | .commandFailed => .returns
  | o => o

/-- `ignore` (lines 232-239): `try` the interaction with ok
`['WATCHING']` and err `['NOT_IGNORED']`, and turn any `CommandFailed`
into a normal return of `1`. -/
def ignoreOutcome (status : Bytes) : Outcome :=
  match classifyKind [toL "WATCHING"] [toL "NOT_IGNORED"] status with
  | .commandFailed => .returns
  | o => o

/-- The expected-failure statuses `reserve` passes to `_interact_job`
(line 184). -/
def reserveErrStatuses : List Bytes := [toL "DEADLINE_SOON", toL "TIMED_OUT"]

/-- `reserve` (lines 172-190): on `CommandFailed`, `TIMED_OUT` returns
`None`, `DEADLINE_SOON` raises `DeadlineSoon`, and the handler's
`if/elif` with no `else` falls through to an implicit `None` return for
any other status. -/
def reserveOutcome (status : Bytes) : Outcome :=
  match classifyKind [toL "RESERVED"] reserveErrStatuses status with
  | .commandFailed =>
      if status = toL "TIMED_OUT" then .returns
      else if status = toL "DEADLINE_SOON" then .deadlineSoon
      else .returns
  | o => o

/-! ## Decimal formatting (`'%d'`) and parsing (`int(...)`) -/

/-- Decimal rendering of a natural number, as Python `'%d' % n` produces
for `n ≥ 0`. -/
def natToDec (n : Nat) : Bytes :=
  if _hlt : n < 10 then [Nat.digitChar n]
  else natToDec (n / 10) ++ [Nat.digitChar (n % 10)]
decreasing_by exact Nat.div_lt_self (by omega) (by omega)

/-- Decimal rendering of an integer, as Python `'%d' % i` produces. -/
def intToDec (i : Int) : Bytes :=
  if i < 0 then '-' :: natToDec i.natAbs else natToDec i.natAbs

/-- Numeric value of a digit string (helper for `pyParseNat`). -/
def decValue (s : Bytes) : Nat :=
  s.foldl (fun a c => a * 10 + (c.toNat - 48)) 0

/-- Whether every character of the string is a decimal digit. -/
def allDigits (s : Bytes) : Bool := s.all Char.isDigit

/-- Python `int(tok)` on the digit-only tokens the protocol produces
(job ids and body sizes): the value on a non-empty all-digit string,
`none` (a `ValueError`) otherwise. -/
def pyParseNat (s : Bytes) : Option Nat :=
  if s ≠ [] ∧ allDigits s then some (decValue s) else none

/-! ## `Connection.reserve` (lines 172-190) -/

/-- Result of `reserve`: a `Job(conn, int(jid), body, reserved)`, a
`None` return, a raised `DeadlineSoon(results)`, a propagated
`UnexpectedResponse`, or a `ValueError` (tuple unpacking of the
results, or `int()` on a non-numeric token). -/
inductive ReserveResult
  | job (jid : Nat) (body : Bytes) (reserved : Bool)
  | noJob
  | deadlineSoon (results : List Bytes)
  | unexpected (verb status : Bytes) (results : List Bytes)
  | valueError
  deriving DecidableEq, Repr

/-- The command `reserve` formats (lines 175-179): with an explicit
timeout, `'reserve-with-timeout %d\r\n' % timeout`; otherwise
`'reserve\r\n'`. -/
def reserveCmd : Option Nat → Bytes
  | some t => toL "reserve-with-timeout " ++ natToDec t ++ toL "\r\n"
  | none => toL "reserve\r\n"

/-- `Connection.reserve` over the received response.  `_interact_job`
(lines 143-148) unpacks the results as `(jid, size)`, reads a body of
`int(size)` bytes — the completed body read is passed in as `body`; its
transport mechanics are `readBody` — and builds
`Job(conn, int(jid), body, reserved=True)`.  The `except CommandFailed`
handler (lines 186-190) maps `TIMED_OUT` to `None`, `DEADLINE_SOON` to
a raised `DeadlineSoon(results)`, and otherwise falls through to an
implicit `None`. -/
def reserveModel (timeout : Option Nat) (status : Bytes) (results : List Bytes)
    (body : Bytes) : ReserveResult :=
  match interactClassify (reserveCmd timeout) [toL "RESERVED"] reserveErrStatuses
      status results with
  | .ok rs =>
      match rs with
      | [jidTok, _] =>
          match pyParseNat jidTok with
          | some j => .job j body true
          | none => .valueError
      | _ => .valueError
  | .commandFailed _ st rs =>
      if st = toL "TIMED_OUT" then .noJob
      else if st = toL "DEADLINE_SOON" then .deadlineSoon rs
      else .noJob
  | .unexpectedResponse v st rs => .unexpected v st rs

/-! ## Python values, `Job._priority`, `Job.release`, `Job.bury`
(lines 287-317) -/

/-- The Python values the claims need: `None`, ints, strings, lists and
dicts (the shapes `yaml.load` produces for statistics documents). -/
inductive PyVal
  | pyNone
  | int (i : Int)
  | str (s : Bytes)
  | list (xs : List PyVal)
  | dict (kvs : List (Bytes × PyVal))

/-- Python truthiness, as evaluated by `priority or self._priority()`
(lines 310 and 316). -/
def pyTruthy : PyVal → Bool
  | .pyNone => false
  | .int i => i ≠ 0
  | .str s => !s.isEmpty
  | .list xs => !xs.isEmpty
  | .dict kvs => !kvs.isEmpty

/-- `isinstance(v, dict)` (line 296). -/
def isDict : PyVal → Bool
  | .dict _ => true
  | _ => false

/-- `isinstance(v, str)` (line 165). -/
def isStr : PyVal → Bool
  | .str _ => true
  | _ => false

/-- Python dict indexing `kvs['pri']`, on the association-list view of a
dict. -/
def pyLookup (k : Bytes) : List (Bytes × PyVal) → Option PyVal
  | [] => none
  | (k', v) :: rest => if k' = k then some v else pyLookup k rest

/-- Line 31: `DEFAULT_PRIORITY = 2**31`. -/
def DEFAULT_PRIORITY : Int := 2 ^ 31

/-- Result of `Job._priority()`: the looked-up value, or a `KeyError`
when the stats dict has no `'pri'` key. -/
inductive PriorityResult
  | ok (v : PyVal)
  | keyError

/-- `Job._priority` (lines 294-298): fetch the job's stats document; if
it is a dict return `stats['pri']`, otherwise return
`DEFAULT_PRIORITY`.  The stats document (the decoded `stats-job`
response) is passed in. -/
def jobPriorityOf (stats : PyVal) : PriorityResult :=
  match stats with
  | .dict kvs =>
      match pyLookup (toL "pri") kvs with
      | some v => .ok v
      | none => .keyError
  | _ => .ok (.int DEFAULT_PRIORITY)

/-- `'release %d %d %d\r\n' % (jid, priority, delay)` (line 265). -/
def releaseCmd (jid : Nat) (pri : Int) (delay : Nat) : Bytes :=
  toL "release " ++ natToDec jid ++ toL " " ++ intToDec pri ++ toL " " ++
    natToDec delay ++ toL "\r\n"

/-- `'bury %d %d\r\n' % (jid, priority)` (line 271). -/
def buryCmd (jid : Nat) (pri : Int) : Bytes :=
  toL "bury " ++ natToDec jid ++ toL " " ++ intToDec pri ++ toL "\r\n"

/-- Effect of `Job.release` / `Job.bury`: the wire command sent (and the
`reserved` flag afterwards), no command at all (the `if self.reserved:`
guard was false), a `KeyError` from `_priority`, or a `TypeError` from
`'%d'` applied to a non-numeric stats value. -/
inductive JobCmdEffect
  | sent (command : Bytes) (reservedAfter : Bool)
  | noop (reservedAfter : Bool)
  | keyError
  | typeError
  deriving DecidableEq, Repr

/-- `Job.release(priority=None, delay=0)` (lines 307-311): when
`self.reserved`, send `release` with `priority or self._priority()` and
clear the flag.  `stats` is the decoded `stats-job` document that
`_priority` would fetch. -/
def jobRelease (reserved : Bool) (jid : Nat) (priority : PyVal) (delay : Nat)
    (stats : PyVal) : JobCmdEffect :=
  if reserved then
    match (if pyTruthy priority then PriorityResult.ok priority
           else jobPriorityOf stats) with
    | .keyError => .keyError
    | .ok (.int i) => .sent (releaseCmd jid i delay) false
    | .ok _ => .typeError
  else .noop reserved

/-- `Job.bury(priority=None)` (lines 313-317), analogous to
`jobRelease`. -/
def jobBury (reserved : Bool) (jid : Nat) (priority : PyVal)
    (stats : PyVal) : JobCmdEffect :=
  if reserved then
    match (if pyTruthy priority then PriorityResult.ok priority
           else jobPriorityOf stats) with
    | .keyError => .keyError
    | .ok (.int i) => .sent (buryCmd jid i) false
    | .ok _ => .typeError
  else .noop reserved

/-! ## The `reserved` flag (lines 302-317) -/

/-- `Job.delete` (lines 302-305): run `conn.delete(jid)`; only when it
returns normally is `self.reserved = False` reached.  The pair is the
flag afterwards and the call's outcome. -/
def jobDeleteFlag (reserved : Bool) (status : Bytes) : Bool × Outcome :=
  match deleteOutcome status with
  | .returns => (false, .returns)
  | o => (reserved, o)

/-- The `reserved` flag after `Job.release` (lines 307-311): the command
runs only under `if self.reserved:`, and the flag is cleared only when
it returns normally. -/
def jobReleaseFlag (reserved : Bool) (status : Bytes) : Bool × Outcome :=
  if reserved then
    match releaseOutcome status with
    | .returns => (false, .returns)
    | o => (reserved, o)
  else (reserved, .returns)

/-- The `reserved` flag after `Job.bury` (lines 313-317), analogous. -/
def jobBuryFlag (reserved : Bool) (status : Bytes) : Bool × Outcome :=
  if reserved then
    match buryOutcome status with
    | .returns => (false, .returns)
    | o => (reserved, o)
  else (reserved, .returns)

/-! ## `Connection.put` (lines 163-170) -/

/-- The header line of the `put` command,
`'put %d %d %d %d' % (priority, delay, ttr, len(body))`. -/
def putHeader (priority delay ttr bodyLen : Nat) : Bytes :=
  toL "put " ++ natToDec priority ++ toL " " ++ natToDec delay ++ toL " " ++
    natToDec ttr ++ toL " " ++ natToDec bodyLen

/-- The full wire command of `put` (lines 166-168):
`'put %d %d %d %d\r\n%s\r\n' % (priority, delay, ttr, len(body), body)`. -/
def putCmd (priority delay ttr : Nat) (s : Bytes) : Bytes :=
  putHeader priority delay ttr s.length ++ toL "\r\n" ++ s ++ toL "\r\n"

/-- `Connection.put` up to the point of sending (lines 163-168): the
`assert isinstance(body, str)` on line 165 fires before anything is
formatted or sent, so a non-`str` body yields `none` (an
`AssertionError` with no bytes on the wire); a `str` body yields the
formatted command handed to `_sendall`. -/
def putModel (priority delay ttr : Nat) (body : PyVal) : Option Bytes :=
  match body with
  | .str s => some (putCmd priority delay ttr s)
  | _ => none

/-! ## Helper lemmas -/

theorem interactClassify_of_ok {c : Bytes} {ok err : List Bytes} {status : Bytes}
    {r : List Bytes} (h : status ∈ ok) : interactClassify c ok err status r = .ok r := by
  simp [interactClassify, h]

theorem interactClassify_of_err {c : Bytes} {ok err : List Bytes} {status : Bytes}
    {r : List Bytes} (h1 : status ∉ ok) (h2 : status ∈ err) :
    interactClassify c ok err status r =
      .commandFailed ((pySplit c).headD []) status r := by
  simp [interactClassify, h1, h2]

theorem interactClassify_of_other {c : Bytes} {ok err : List Bytes} {status : Bytes}
    {r : List Bytes} (h1 : status ∉ ok) (h2 : status ∉ err) :
    interactClassify c ok err status r =
      .unexpectedResponse ((pySplit c).headD []) status r := by
  simp [interactClassify, h1, h2]

/-! ## Claim theorems -/

/-- C1: the claim says `_sendall(data)` retries until every byte of
`data` has been sent.  The code contradicts it: line 93 subtracts the
*cumulative* counter (`remaining -= sent`) instead of recomputing
`len(data) - sent`, so partial sends desynchronise the bookkeeping.
Concretely, for 10 bytes of data where the first `send` accepts 3 bytes
and the retried `send` accepts 4 more (both counts within what was
requested), `remaining` reaches 0 and the function returns normally
having transmitted only 7 of the 10 bytes. -/
theorem sendall_short_write_bug :
    sendall 10 (.accepted 3) [.writable (.accepted 4)] = .ok 7 ∧
    3 ≤ 10 ∧ 4 ≤ 10 - 3 ∧ 7 < 10 := by decide

/-- C2: the claim says `_read_response` returns only once a complete
CRLF-terminated line is buffered, and keeps reading on a partial line.
The code contradicts it: `bytearray.partition` returns the *whole*
buffer in its first component when the separator is absent, and the
`if line:` test on line 118 checks only non-emptiness, so a readable
chunk holding the partial line `"RES"` (no terminator anywhere) is
immediately returned as status `"RES"` with no arguments — and the
buffer is cleared. -/
theorem read_response_partial_line_bug :
    readResponse [] [.chunk (toL "RES")] = .ok (toL "RES") [] [] := by decide

/-- C4: `_interact` classifies each received response in exactly three
ways — argument tokens are returned when the status is in the
expected-ok list, `CommandFailed(verb, status, args)` is raised when it
is in the expected-err list, and `UnexpectedResponse(verb, status,
args)` is raised otherwise, where `verb` is the first word of the
command. -/
theorem interact_classification (command : Bytes) (ok err : List Bytes)
    (status : Bytes) (results : List Bytes) (verb : Bytes) (rest : List Bytes)
    (hsplit : pySplit command = verb :: rest) :
    (status ∈ ok → interactClassify command ok err status results = .ok results) ∧
    (status ∉ ok → status ∈ err →
      interactClassify command ok err status results =
        .commandFailed verb status results) ∧
    (status ∉ ok → status ∉ err →
      interactClassify command ok err status results =
        .unexpectedResponse verb status results) := by
  refine ⟨fun h => interactClassify_of_ok h, fun h1 h2 => ?_, fun h1 h2 => ?_⟩
  · rw [interactClassify_of_err h1 h2, hsplit]; rfl
  · rw [interactClassify_of_other h1 h2, hsplit]; rfl

/-- Witness for C4: `delete 1` answered with `NOT_FOUND` (which is in its
expected-err list) raises `CommandFailed('delete', 'NOT_FOUND', [])`. -/
theorem interact_classification_witness :
    interactClassify (toL "delete 1\r\n") [toL "DELETED"] [toL "NOT_FOUND"]
      (toL "NOT_FOUND") [] = .commandFailed (toL "delete") (toL "NOT_FOUND") [] :=
  (interact_classification (toL "delete 1\r\n") [toL "DELETED"] [toL "NOT_FOUND"]
    (toL "NOT_FOUND") [] (toL "delete") [toL "1"] (by decide)).2.1
    (by decide) (by decide)

/-- C5 counterexample: the claim says only the `peek*` verbs and
`ignore` convert a recognized server failure status into a normal
result, every other verb surfacing recognized failures as exceptions.
But `reserve` lists `TIMED_OUT` among its expected-err statuses (line
184) and its `except CommandFailed` handler returns `None` for it
(lines 186-188) — a recognized failure converted into a normal
non-raising result by a verb that is neither `peek*` nor `ignore`. -/
theorem reserve_converts_timed_out :
    toL "TIMED_OUT" ∈ reserveErrStatuses ∧
    reserveOutcome (toL "TIMED_OUT") = .returns := by decide

/-- C5 amended: `peek*` turns `NOT_FOUND` into `None`, `ignore` turns
`NOT_IGNORED` into `1`, and `reserve` additionally turns `TIMED_OUT`
into `None` (its other recognized failure, `DEADLINE_SOON`, raises
`DeadlineSoon`); every other verb with a non-empty expected-err list
surfaces its recognized failure statuses as `CommandFailed`. -/
theorem failure_translation_amended :
    peekOutcome (toL "NOT_FOUND") = .returns ∧
    ignoreOutcome (toL "NOT_IGNORED") = .returns ∧
    reserveOutcome (toL "TIMED_OUT") = .returns ∧
    reserveOutcome (toL "DEADLINE_SOON") = .deadlineSoon ∧
    putOutcome (toL "JOB_TOO_BIG") = .commandFailed ∧
    deleteOutcome (toL "NOT_FOUND") = .commandFailed ∧
    releaseOutcome (toL "NOT_FOUND") = .commandFailed ∧
    buryOutcome (toL "NOT_FOUND") = .commandFailed ∧
    touchOutcome (toL "NOT_FOUND") = .commandFailed ∧
    statsTubeOutcome (toL "NOT_FOUND") = .commandFailed ∧
    statsJobOutcome (toL "NOT_FOUND") = .commandFailed ∧
    pauseTubeOutcome (toL "NOT_FOUND") = .commandFailed := by decide

/-- C7 counterexample: the claim says `close()` closes the socket in
every case, including when the quit send itself fails.  In the source
the `self._socket.close()` call sits inside the `try:` block *after*
`self._sendall('quit\r\n')`, so when the send raises a socket error
(here: a non-`EAGAIN` error from the very first `send`, and likewise a
`socket.timeout` when writability never arrives) the handler swallows
the error and the close call is never executed — the socket is left
open. -/
theorem close_skips_close_on_send_error :
    closeConn .fatal [] = .swallowed ∧
    closeConn .fatal [] ≠ .closedSocket ∧
    closeConn .eagain [.notWritable] = .swallowed := by decide

/-- C7 amended: `close()` never propagates a socket error — a failing
quit send is swallowed — but it closes the socket only when the quit
send completes; when the send raises, the close is skipped and the
socket is left open. -/
theorem close_amended (first : SendOutcome) (evs : List LoopEvent) :
    (∀ n, sendall 6 first evs = .ok n → closeConn first evs = .closedSocket) ∧
    (sendall 6 first evs = .timedOut → closeConn first evs = .swallowed) ∧
    (sendall 6 first evs = .socketError → closeConn first evs = .swallowed) := by
  refine ⟨fun n h => ?_, fun h => ?_, fun h => ?_⟩ <;> simp [closeConn, h]

/-- Witness for C7's amended theorem: a quit send accepted whole leads
to the socket being closed; a fatal send error is swallowed with the
close skipped. -/
theorem close_amended_witness :
    closeConn (.accepted 6) [] = .closedSocket ∧ closeConn .fatal [] = .swallowed :=
  ⟨(close_amended (.accepted 6) []).1 6 (by decide),
   (close_amended .fatal []).2.2 (by decide)⟩

/-- C3: whenever `_read_body(n)` returns, the accumulated buffer (the
starting buffer plus whatever chunks the partial reads appended) holds
at least `n + 2` bytes, the returned body is exactly its first `n`
bytes, exactly `n + 2` bytes (body plus terminator) are consumed, and
everything beyond that boundary stays buffered for the next response. -/
theorem readBody_exact (size : Nat) (buf : Bytes) (evs : List RecvEvent)
    (body rest : Bytes) (h : readBody size buf evs = .ok body rest) :
    body.length = size ∧
    ∃ extra : Bytes, size + 2 ≤ (buf ++ extra).length ∧
      body = (buf ++ extra).take size ∧ rest = (buf ++ extra).drop (size + 2) := by
  induction evs generalizing buf with
  | nil =>
      rw [readBody.eq_def] at h
      split at h
      · next hle =>
          injection h with h1 h2
          refine ⟨?_, [], by simpa using hle, by simp [← h1], by simp [← h2]⟩
          rw [← h1]
          simp only [List.length_take]
          omega
      · simp at h
  | cons ev evs ih =>
      rw [readBody.eq_def] at h
      split at h
      · next hle =>
          injection h with h1 h2
          refine ⟨?_, [], by simpa using hle, by simp [← h1], by simp [← h2]⟩
          rw [← h1]
          simp only [List.length_take]
          omega
      · next hle =>
          cases ev with
          | notReadable => simp at h
          | chunk data =>
              cases data with
              | nil => simp at h
              | cons c cs =>
                  obtain ⟨hlen, extra, hle2, hb, hr⟩ := ih (buf ++ c :: cs) h
                  exact ⟨hlen, (c :: cs) ++ extra,
                    by simpa [List.append_assoc] using hle2,
                    by simpa [List.append_assoc] using hb,
                    by simpa [List.append_assoc] using hr⟩

/-- Witness for C3: starting from a 2-byte buffer `"ab"`, a body read of
size 3 that receives the chunk `"c\r\nNEXT"` returns body `"abc"` and
leaves `"NEXT"` buffered. -/
theorem readBody_exact_witness :
    (toL "abc").length = 3 ∧
    ∃ extra : Bytes, 3 + 2 ≤ (toL "ab" ++ extra).length ∧
      toL "abc" = (toL "ab" ++ extra).take 3 ∧
      toL "NEXT" = (toL "ab" ++ extra).drop (3 + 2) :=
  readBody_exact 3 (toL "ab") [.chunk (toL "c\r\nNEXT")] (toL "abc") (toL "NEXT")
    (by decide)

/-- C6: `reserve` builds `Job(conn, int(jid), body, reserved=True)` from
a `RESERVED` response, returns `None` from a `TIMED_OUT` response,
raises `DeadlineSoon(results)` from a `DEADLINE_SOON` response, and
formats its command as `reserve-with-timeout <t>` when an explicit
timeout is given and plain `reserve` otherwise. -/
theorem reserve_spec (topt : Option Nat) (t : Nat) (results : List Bytes)
    (body : Bytes) (jidTok szTok : Bytes) (j : Nat)
    (hj : pyParseNat jidTok = some j) :
    reserveModel topt (toL "RESERVED") [jidTok, szTok] body = .job j body true ∧
    reserveModel topt (toL "TIMED_OUT") results body = .noJob ∧
    reserveModel topt (toL "DEADLINE_SOON") results body = .deadlineSoon results ∧
    reserveCmd (some t) = toL "reserve-with-timeout " ++ natToDec t ++ toL "\r\n" ∧
    reserveCmd none = toL "reserve\r\n" := by
  refine ⟨?_, ?_, ?_, rfl, rfl⟩
  · rw [reserveModel, interactClassify_of_ok (by decide)]
    simp [hj]
  · rw [reserveModel, interactClassify_of_err (by decide) (by decide)]
    simp
  · rw [reserveModel, interactClassify_of_err (by decide) (by decide)]
    simp
    decide

/-- Witness for C6: a `RESERVED 42 3` response with body `"abc"` yields
`Job(42, "abc", reserved=True)`; `TIMED_OUT` yields `None`;
`DEADLINE_SOON` raises `DeadlineSoon`. -/
theorem reserve_spec_witness :
    reserveModel (some 5) (toL "RESERVED") [toL "42", toL "3"] (toL "abc") =
      .job 42 (toL "abc") true ∧
    reserveModel none (toL "TIMED_OUT") [] [] = .noJob ∧
    reserveModel none (toL "DEADLINE_SOON") [] [] = .deadlineSoon [] :=
  ⟨(reserve_spec (some 5) 5 [] (toL "abc") (toL "42") (toL "3") 42 (by decide)).1,
   (reserve_spec none 5 [] [] (toL "42") (toL "3") 42 (by decide)).2.1,
   (reserve_spec none 5 [] [] (toL "42") (toL "3") 42 (by decide)).2.2.1⟩

/-- C8: `Job.release` and `Job.bury` with no explicit priority (the
`None` default) look the job's current priority up via `stats_job` —
the `'pri'` entry of the returned stats document when it is a dict, the
default priority `2**31` otherwise — and send that value as the
priority field of the `release`/`bury` command. -/
theorem job_default_priority (jid delay : Nat) (kvs : List (Bytes × PyVal))
    (i : Int) (s : PyVal)
    (hpri : pyLookup (toL "pri") kvs = some (.int i))
    (hnd : isDict s = false) :
    jobRelease true jid .pyNone delay (.dict kvs) =
      .sent (releaseCmd jid i delay) false ∧
    jobBury true jid .pyNone (.dict kvs) = .sent (buryCmd jid i) false ∧
    jobRelease true jid .pyNone delay s =
      .sent (releaseCmd jid DEFAULT_PRIORITY delay) false ∧
    jobBury true jid .pyNone s = .sent (buryCmd jid DEFAULT_PRIORITY) false := by
  have hdict : jobPriorityOf (.dict kvs) = .ok (.int i) := by
    simp [jobPriorityOf, hpri]
  have hother : jobPriorityOf s = .ok (.int DEFAULT_PRIORITY) := by
    cases s <;> simp_all [jobPriorityOf, isDict]
  exact ⟨by simp [jobRelease, pyTruthy, hdict], by simp [jobBury, pyTruthy, hdict],
         by simp [jobRelease, pyTruthy, hother], by simp [jobBury, pyTruthy, hother]⟩

/-- Witness for C8: a stats document `{'pri': 100}` makes a priority-less
release of job 7 send `release 7 100 0`; a non-dict stats document makes
a priority-less bury fall back to the default priority. -/
theorem job_default_priority_witness :
    jobRelease true 7 .pyNone 0 (.dict [(toL "pri", .int 100)]) =
      .sent (releaseCmd 7 100 0) false ∧
    jobBury true 7 .pyNone (.int 0) = .sent (buryCmd 7 DEFAULT_PRIORITY) false :=
  ⟨(job_default_priority 7 0 [(toL "pri", .int 100)] 100 (.int 0)
      (by rfl) (by rfl)).1,
   (job_default_priority 7 0 [(toL "pri", .int 100)] 100 (.int 0)
      (by rfl) (by rfl)).2.2.2⟩

/-- C9: the `reserved` flag of a `Job` is cleared exactly by a
`delete`, `release` or `bury` that returns normally; when the
underlying command raises, the flag is left unchanged, so a job whose
delete fails still has `reserved = True`. -/
theorem reserved_flag (r : Bool) (status : Bytes) :
    (deleteOutcome status = .returns → (jobDeleteFlag r status).1 = false) ∧
    (deleteOutcome status ≠ .returns → (jobDeleteFlag r status).1 = r) ∧
    (releaseOutcome status = .returns → (jobReleaseFlag true status).1 = false) ∧
    (releaseOutcome status ≠ .returns → (jobReleaseFlag r status).1 = r) ∧
    (buryOutcome status = .returns → (jobBuryFlag true status).1 = false) ∧
    (buryOutcome status ≠ .returns → (jobBuryFlag r status).1 = r) := by
  refine ⟨fun h => by simp [jobDeleteFlag, h], fun h => ?_,
          fun h => by simp [jobReleaseFlag, h], fun h => ?_,
          fun h => by simp [jobBuryFlag, h], fun h => ?_⟩
  · cases hd : deleteOutcome status
    case returns => exact absurd hd h
    all_goals simp [jobDeleteFlag, hd]
  · cases r with
    | false => simp [jobReleaseFlag]
    | true =>
        cases hd : releaseOutcome status
        case returns => exact absurd hd h
        all_goals simp [jobReleaseFlag, hd]
  · cases r with
    | false => simp [jobBuryFlag]
    | true =>
        cases hd : buryOutcome status
        case returns => exact absurd hd h
        all_goals simp [jobBuryFlag, hd]

/-- Witness for C9: a successful delete clears the flag; a delete
answered `NOT_FOUND` (which raises `CommandFailed`) leaves the job
marked reserved; likewise for release and bury. -/
theorem reserved_flag_witness :
    (jobDeleteFlag true (toL "DELETED")).1 = false ∧
    (jobDeleteFlag true (toL "NOT_FOUND")).1 = true ∧
    (jobReleaseFlag true (toL "RELEASED")).1 = false ∧
    (jobBuryFlag true (toL "TIMED_OUT")).1 = true :=
  ⟨(reserved_flag true (toL "DELETED")).1 (by decide),
   (reserved_flag true (toL "NOT_FOUND")).2.1 (by decide),
   (reserved_flag true (toL "RELEASED")).2.2.1 (by decide),
   (reserved_flag true (toL "TIMED_OUT")).2.2.2.2.2 (by decide)⟩

/-! ## Decimal round-trip and header/body boundary lemmas -/

theorem digitChar_isDigit {m : Nat} (h : m < 10) : (Nat.digitChar m).isDigit := by
  interval_cases m <;> decide

theorem digitChar_toNat {m : Nat} (h : m < 10) : (Nat.digitChar m).toNat = m + 48 := by
  interval_cases m <;> decide

theorem natToDec_digits (n : Nat) : allDigits (natToDec n) = true := by
  induction n using Nat.strong_induction_on with
  | _ n ih =>
    rw [natToDec]
    split
    · next h => simp [allDigits, digitChar_isDigit h]
    · next h =>
      have hrec := ih (n / 10) (Nat.div_lt_self (by omega) (by omega))
      simp [allDigits] at hrec ⊢
      exact ⟨hrec, digitChar_isDigit (Nat.mod_lt _ (by omega))⟩

theorem natToDec_ne_nil (n : Nat) : natToDec n ≠ [] := by
  rw [natToDec]
  split <;> simp

theorem decValue_append (xs : Bytes) (c : Char) :
    decValue (xs ++ [c]) = decValue xs * 10 + (c.toNat - 48) := by
  simp [decValue, List.foldl_append]

theorem decValue_natToDec (n : Nat) : decValue (natToDec n) = n := by
  induction n using Nat.strong_induction_on with
  | _ n ih =>
    rw [natToDec]
    split
    · next h =>
      simp [decValue, digitChar_toNat h]
    · next h =>
      rw [decValue_append, ih (n / 10) (Nat.div_lt_self (by omega) (by omega)),
          digitChar_toNat (Nat.mod_lt _ (by omega))]
      omega

theorem pyParseNat_natToDec (n : Nat) : pyParseNat (natToDec n) = some n := by
  simp [pyParseNat, natToDec_ne_nil, natToDec_digits, decValue_natToDec]

theorem cr_not_mem_natToDec (n : Nat) : '\r' ∉ natToDec n := by
  intro h
  have hd := natToDec_digits n
  simp [allDigits, List.all_eq_true] at hd
  exact absurd (hd _ h) (by decide)

theorem partitionCRLF_append (a b : Bytes) (ha : '\r' ∉ a) :
    partitionCRLF (a ++ '\r' :: '\n' :: b) = (a, ['\r', '\n'], b) := by
  induction a with
  | nil => simp [partitionCRLF]
  | cons c a ih =>
    have hcr : c ≠ '\r' := fun h => ha (by simp [h])
    have ha' : '\r' ∉ a := fun h => ha (List.mem_cons_of_mem _ h)
    have hc : ¬(c = '\r' ∧ (a ++ '\r' :: '\n' :: b).head? = some '\n') := by
      rintro ⟨h1, -⟩
      exact hcr h1
    simp only [List.cons_append, partitionCRLF, if_neg hc]
    simp [ih ha']
    exact fun h1 => (hcr h1).elim

theorem cr_not_mem_putHeader (p d t n : Nat) : '\r' ∉ putHeader p d t n := by
  have h1 := cr_not_mem_natToDec p
  have h2 := cr_not_mem_natToDec d
  have h3 := cr_not_mem_natToDec t
  have h4 := cr_not_mem_natToDec n
  simp [putHeader, toL, List.mem_append, h1, h2, h3, h4]

/-- C10: `put` asserts that the body is a `str` instance before any
formatting or sending happens, so a non-`str` body produces an
`AssertionError` with no bytes on the wire; for a `str` body the
formatted command is the header `put <pri> <delay> <ttr> <len(body)>`
followed by the terminator, the body bytes, and the terminator again —
the first CRLF of the command splits it exactly at the header/body
boundary (the header is CR-free), and the declared-length field parses
back to exactly `len(body)`. -/
theorem put_embedding (p d t : Nat) (body : PyVal) (s : Bytes) :
    (isStr body = false → putModel p d t body = none) ∧
    putModel p d t (.str s) = some (putCmd p d t s) ∧
    partitionCRLF (putCmd p d t s) =
      (putHeader p d t s.length, ['\r', '\n'], s ++ toL "\r\n") ∧
    pyParseNat (natToDec s.length) = some s.length := by
  refine ⟨fun h => ?_, rfl, ?_, pyParseNat_natToDec _⟩
  · cases body <;> simp_all [putModel, isStr]
  · have hsplit := partitionCRLF_append (putHeader p d t s.length) (s ++ toL "\r\n")
      (cr_not_mem_putHeader p d t s.length)
    rw [← hsplit]
    simp [putCmd, toL, List.append_assoc]

/-- Witness for C10: an int body yields an `AssertionError` before
sending; the command for body `"hi"` splits at its first CRLF into the
header `put 1 0 60 2` and the trailing `hi\r\n`. -/
theorem put_embedding_witness :
    putModel 1 0 60 (PyVal.int 3) = none ∧
    partitionCRLF (putCmd 1 0 60 (toL "hi")) =
      (putHeader 1 0 60 2, ['\r', '\n'], toL "hi" ++ toL "\r\n") ∧
    pyParseNat (natToDec 2) = some 2 := by
  have h := put_embedding 1 0 60 (PyVal.int 3) (toL "hi")
  exact ⟨h.1 rfl, h.2.2.1, h.2.2.2⟩

end Beanstalkc
